import Mathlib

/-!
Model of `src/CustomFeatureSettings.py`, a single-pass G-code rewriting engine.

Lines of the document are modelled as `List Char` (`Str`).  Python floats are
idealised as exact rationals `ℚ`; every numeric literal the program parses is a
finite decimal, so the idealisation is exact on the inputs of interest.  Each
regular expression of the source is translated into an executable character
scanner with the same matching semantics (anchoring, word boundaries,
greediness and backtracking of the concrete patterns).
-/

set_option maxRecDepth 100000

namespace CFS

abbrev Str := List Char

def lit (s : String) : Str := s.toList

/-- Python `\s` (ASCII subset, which is what G-code contains). -/
def pyIsSpace (c : Char) : Bool :=
  c = ' ' || c = '\t' || c = '\n' || c = '\r' || c = '\x0b' || c = '\x0c'

/-- Python `\w`: letters, digits, underscore. -/
def isWordChar (c : Char) : Bool := c.isAlphanum || c = '_'

/-- `^\s*` : skip leading whitespace. -/
def dropSpaces (s : Str) : Str := s.dropWhile pyIsSpace

/-- Word boundary `\b` when the rest of the input is `s`: the next character,
if any, must not be a word character. -/
def wbAfter (s : Str) : Bool :=
  match s with
  | [] => true
  | c :: _ => !isWordChar c

/-- Case-insensitive literal prefix match; returns the rest on success. -/
def stripPrefixCI : Str → Str → Option Str
  | [], s => some s
  | _ :: _, [] => none
  | p :: ps, c :: cs => if p.toLower = c.toLower then stripPrefixCI ps cs else none

def takeDigits (s : Str) : Str × Str := (s.takeWhile Char.isDigit, s.dropWhile Char.isDigit)

def digitsToNat (ds : Str) : ℕ := ds.foldl (fun n c => 10 * n + (c.toNat - 48)) 0

/-- `-?\d+` with Python `int()` semantics; returns the value and the rest. -/
def scanInt (s : Str) : Option (ℤ × Str) :=
  match s with
  | '-' :: r =>
    let (ds, rest) := takeDigits r
    if ds = [] then none else some (-(digitsToNat ds : ℤ), rest)
  | _ =>
    let (ds, rest) := takeDigits s
    if ds = [] then none else some ((digitsToNat ds : ℤ), rest)

/-- `[-+]?\d*\.?\d+` with the backtracking of the Python engine: if the dot is
not followed by a digit it is given back, and then at least one integer digit
is required.  Returns (consumed token, value, rest). -/
def scanNumCore (s : Str) : Option (Str × ℚ × Str) :=
  let (sgnTok, sgn, s1) : Str × ℚ × Str :=
    match s with
    | '-' :: r => (['-'], -1, r)
    | '+' :: r => (['+'], 1, r)
    | _ => ([], 1, s)
  let (d1, r1) := takeDigits s1
  match r1 with
  | '.' :: r2 =>
    let (d2, r3) := takeDigits r2
    if d2 ≠ [] then
      some (sgnTok ++ d1 ++ '.' :: d2,
            sgn * ((digitsToNat d1 : ℚ) + (digitsToNat d2 : ℚ) / 10 ^ d2.length), r3)
    else if d1 ≠ [] then some (sgnTok ++ d1, sgn * (digitsToNat d1 : ℚ), r1)
    else none
  | _ => if d1 ≠ [] then some (sgnTok ++ d1, sgn * (digitsToNat d1 : ℚ), r1) else none

def applyExp (v : ℚ) (e : ℤ) : ℚ :=
  if 0 ≤ e then v * 10 ^ e.natAbs else v / 10 ^ e.natAbs

/-- `[-+]?\d*\.?\d+(?:[eE][-+]?\d+)?` : the optional exponent is consumed only
when complete. -/
def scanNumExp (s : Str) : Option (Str × ℚ × Str) :=
  match scanNumCore s with
  | none => none
  | some (tok, v, rest) =>
    match rest with
    | e :: r2 =>
      if e = 'e' || e = 'E' then
        let (sTok, sgn, r3) : Str × ℤ × Str :=
          match r2 with
          | '+' :: r => (['+'], 1, r)
          | '-' :: r => (['-'], -1, r)
          | _ => ([], 1, r2)
        let (ds, r4) := takeDigits r3
        if ds = [] then some (tok, v, rest)
        else some (tok ++ e :: sTok ++ ds, applyExp v (sgn * (digitsToNat ds : ℤ)), r4)
      else some (tok, v, rest)
    | [] => some (tok, v, rest)

def boundaryOk (prev : Option Char) : Bool :=
  match prev with
  | none => true
  | some p => !isWordChar p

/-- `re.search` for `E_WORD_RE = (?i)\bE(num)`: leftmost occurrence; returns
(text before the number, number token, value, text after). -/
def findEFrom : Str → Option Char → Str → Option (Str × Str × ℚ × Str)
  | _, _, [] => none
  | pre, prev, c :: rest =>
    if boundaryOk prev && (c = 'E' || c = 'e') then
      match scanNumExp rest with
      | some (tok, v, post) => some (pre ++ [c], tok, v, post)
      | none => findEFrom (pre ++ [c]) (some c) rest
    else findEFrom (pre ++ [c]) (some c) rest

def findE (s : Str) : Option (Str × Str × ℚ × Str) := findEFrom [] none s

/-- `re.search` for `Z_WORD_RE = \bZ([-+]?\d*\.?\d+)` (case sensitive, no
exponent); only the value is needed. -/
def findZFrom : Option Char → Str → Option ℚ
  | _, [] => none
  | prev, c :: rest =>
    if boundaryOk prev && c = 'Z' then
      match scanNumCore rest with
      | some (_, v, _) => some v
      | none => findZFrom (some c) rest
    else findZFrom (some c) rest

def findZ (s : Str) : Option ℚ := findZFrom none s

/-- `MOVE_RE = ^\s*G0?1\b` (case insensitive). -/
def moveTail : Str → Bool
  | '0' :: '1' :: r => wbAfter r
  | '1' :: r => wbAfter r
  | _ => false

def matchMove (s : Str) : Bool :=
  match dropSpaces s with
  | 'G' :: r => moveTail r
  | 'g' :: r => moveTail r
  | _ => false

/-- `-?\d+(?:\.\d+)?` for the temperature S value (the incomplete fraction is
given back by backtracking). -/
def scanTempNum (s : Str) : Option ℚ :=
  let (sgn, s1) : ℚ × Str := match s with | '-' :: r => (-1, r) | _ => (1, s)
  let (d1, r1) := takeDigits s1
  if d1 = [] then none
  else
    match r1 with
    | '.' :: r2 =>
      let (d2, _) := takeDigits r2
      if d2 = [] then some (sgn * (digitsToNat d1 : ℚ))
      else some (sgn * ((digitsToNat d1 : ℚ) + (digitsToNat d2 : ℚ) / 10 ^ d2.length))
    | _ => some (sgn * (digitsToNat d1 : ℚ))

/-- `\d+` for the fan S value. -/
def scanFanNum (s : Str) : Option ℤ :=
  let (ds, _) := takeDigits s
  if ds = [] then none else some (digitsToNat ds : ℤ)

/-- `[^;]*\bS(num)` resolved the way the backtracking engine does: the greedy
`[^;]*` makes the match use the rightmost `S` (case insensitive) with a word
boundary before it and a parsable number after it. -/
def findLastS {α : Type} (scan : Str → Option α) : Option Char → Str → Option α
  | _, [] => none
  | prev, c :: rest =>
    match findLastS scan (some c) rest with
    | some v => some v
    | none =>
      if boundaryOk prev && (c = 'S' || c = 's') then scan rest else none

/-- `TEMP_CMD_RE = ^\s*M10(?:4|9)\b[^;]*\bS(-?\d+(?:\.\d+)?)` (IGNORECASE). -/
def matchTempCmd (s : Str) : Option ℚ :=
  match stripPrefixCI (lit "M10") (dropSpaces s) with
  | some (c :: r) =>
    if (c = '4' || c = '9') && wbAfter r then
      findLastS scanTempNum (some c) (r.takeWhile (fun x => x ≠ ';'))
    else none
  | _ => none

/-- `FAN_ON_RE = ^\s*M106\b[^;]*\bS(\d+)` (IGNORECASE). -/
def matchFanOn (s : Str) : Option ℤ :=
  match stripPrefixCI (lit "M106") (dropSpaces s) with
  | some r =>
    if wbAfter r then findLastS scanFanNum (some '6') (r.takeWhile (fun x => x ≠ ';'))
    else none
  | none => none

/-- `FAN_OFF_RE = ^\s*M107\b` (IGNORECASE). -/
def matchFanOff (s : Str) : Bool :=
  match stripPrefixCI (lit "M107") (dropSpaces s) with
  | some r => wbAfter r
  | none => false

/-- `re.search(r"^\s*M82\b", s, IGNORECASE)`. -/
def matchM82 (s : Str) : Bool :=
  match stripPrefixCI (lit "M82") (dropSpaces s) with
  | some r => wbAfter r
  | none => false

/-- `re.search(r"^\s*M83\b", s, IGNORECASE)`. -/
def matchM83 (s : Str) : Bool :=
  match stripPrefixCI (lit "M83") (dropSpaces s) with
  | some r => wbAfter r
  | none => false

/-- `re.search(r"^\s*G92\b", s, IGNORECASE)`. -/
def matchG92 (s : Str) : Bool :=
  match stripPrefixCI (lit "G92") (dropSpaces s) with
  | some r => wbAfter r
  | none => false

/-- `LAYER_NUM_RE = ^\s*;LAYER:\s*(-?\d+)` (IGNORECASE): no space allowed
between `;`, `LAYER` and `:`. -/
def matchLayerNum (s : Str) : Option ℤ :=
  match dropSpaces s with
  | ';' :: r =>
    match stripPrefixCI (lit "LAYER") r with
    | some (':' :: r2) => (scanInt (dropSpaces r2)).map (fun p => p.1)
    | _ => none
  | _ => none

/-- `LAYER_WORD_RE = ^\s*;\s*layer\s+(-?\d+)\b` (IGNORECASE). -/
def matchLayerWord (s : Str) : Option ℤ :=
  match dropSpaces s with
  | ';' :: r =>
    match stripPrefixCI (lit "layer") (dropSpaces r) with
    | some (c :: r2) =>
      if pyIsSpace c then
        match scanInt (r2.dropWhile pyIsSpace) with
        | some (n, rest) => if wbAfter rest then some n else none
        | none => none
      else none
    | _ => none
  | _ => none

/-- `LAYER_CHANGE_RE = ^\s*;(?:BEFORE_)?LAYER_CHANGE\b` (IGNORECASE). -/
def matchLayerChange (s : Str) : Bool :=
  match dropSpaces s with
  | ';' :: r =>
    match stripPrefixCI (lit "BEFORE_LAYER_CHANGE") r with
    | some r2 => wbAfter r2
    | none =>
      match stripPrefixCI (lit "LAYER_CHANGE") r with
      | some r2 => wbAfter r2
      | none => false
  | _ => false

/-- Strip a single trailing newline (a line read by `readlines` carries at
most one, at its end). -/
def stripOneNL (l : Str) : Str :=
  if l.getLast? = some '\n' then l.dropLast else l

/-- `TYPE_PREFIX_RE = ^\s*;\s*TYPE\s*:\s*(.+)$` (IGNORECASE), applied with
`re.match`.  `.` does not cross a newline and `$` also matches just before a
final newline, so on a readlines-style line the group is the text after the
colon, with leading whitespace removed; when that text is entirely whitespace
the backtracking leaves exactly its last character in the group. -/
def typeTail (r : Str) : Option Str :=
  match stripPrefixCI (lit "TYPE") (dropSpaces r) with
  | some r2 =>
    match dropSpaces r2 with
    | ':' :: r3 =>
      let g := r3.dropWhile pyIsSpace
      if g ≠ [] then some g
      else
        match r3.getLast? with
        | some c => some [c]
        | none => none
    | _ => none
  | none => none

def typeValue (line : Str) : Option Str :=
  if (stripOneNL line).elem '\n' then none
  else
    match dropSpaces (stripOneNL line) with
    | [] => none
    | c :: r => if c = ';' then typeTail r else none

/-- Python `str.partition(";")`: text before the first `;`, whether a `;` was
found, text after it. -/
def pyPartitionSemi : Str → Str × Bool × Str
  | [] => ([], false, [])
  | c :: r =>
    if c = ';' then ([], true, r)
    else
      let (a, f, b) := pyPartitionSemi r
      (c :: a, f, b)

def rstripChar (c : Char) (s : Str) : Str := (s.reverse.dropWhile (fun x => x = c)).reverse

/-- Python `str.rstrip("\n")`. -/
def rstripNL (s : Str) : Str := rstripChar '\n' s

def pyStrip (s : Str) : Str := (dropSpaces ((dropSpaces s.reverse).reverse))

def pyLower (s : Str) : Str := s.map Char.toLower

end CFS

namespace CFS

/-! ## Feature synonym tables (module-level dictionaries of the source) -/

def FEATURE_SYNONYMS : List (String × List String) := [
  ("external_perimeter", ["external perimeter", "external perimeters", "external wall",
                          "outer wall", "wall-outer", "wall outer"]),
  ("internal_perimeter", ["perimeter", "perimeters", "inner wall", "wall-inner", "wall inner"]),
  ("overhang_perimeter", ["overhang perimeter", "overhang wall", "wall-overhang", "overhang-wall"]),
  ("infill", ["infill", "internal infill"]),
  ("solid_infill", ["solid infill", "solid-infill"]),
  ("top_surface", ["top solid infill", "skin top", "top surface", "top surfaces", "topskin"]),
  ("bottom_surface", ["bottom solid infill", "skin bottom", "bottom surface",
                      "bottom surfaces", "bottomskin"]),
  ("bridge", ["bridge", "bridges", "bridge infill", "bridge-infill"]),
  ("support_interface", ["support material interface", "support interface"]),
  ("support", ["support material", "support", "supports"])]

/-- Python dict insertion (later writes overwrite earlier ones). -/
def dictInsert (m : List (Str × String)) (k : Str) (v : String) : List (Str × String) :=
  if m.any (fun p => p.1 = k) then m.map (fun p => if p.1 = k then (k, v) else p)
  else m ++ [(k, v)]

def dictGet (m : List (Str × String)) (k : Str) : Option String :=
  (m.find? (fun p => p.1 = k)).map (fun p => p.2)

/-- `norm_key`: strip, lower, `_`/`-` to spaces, collapse `\s+` runs to one space. -/
def collapseWsAux : Bool → Str → Str
  | _, [] => []
  | prevSpace, c :: rest =>
    if pyIsSpace c then
      if prevSpace then collapseWsAux true rest else ' ' :: collapseWsAux true rest
    else c :: collapseWsAux false rest

def norm_key (s : Str) : Str :=
  let s1 := pyLower (pyStrip s)
  let s2 := s1.map (fun c => if c = '_' || c = '-' then ' ' else c)
  collapseWsAux false s2

def SYNONYM_TO_CANONICAL : List (Str × String) :=
  FEATURE_SYNONYMS.foldl
    (fun m p => p.2.foldl (fun m s => dictInsert m (pyLower (pyStrip s.toList)) p.1) m) []

def NORM_TO_CANONICAL : List (Str × String) :=
  FEATURE_SYNONYMS.foldl
    (fun m p => p.2.foldl (fun m s => dictInsert m (norm_key s.toList) p.1) m) []

/-- `match_canonical`: first segment before `;`/`|`/`,`, stripped; exact
lowercase lookup, then normalized lookup. -/
def match_canonical (type_value : Str) : Option String :=
  if type_value = [] then none
  else
    let primary := pyStrip (type_value.takeWhile (fun c => !(c = ';' || c = '|' || c = ',')))
    let key_exact := pyLower primary
    match dictGet SYNONYM_TO_CANONICAL key_exact with
    | some canon => some canon
    | none => dictGet NORM_TO_CANONICAL (norm_key primary)

/-! ## Numeric helpers: clamp, pwm conversion, float formatting -/

def clamp (v lo hi : ℤ) : ℤ := max lo (min hi v)

def qfloor (q : ℚ) : ℤ := Int.fdiv q.num q.den

/-- Python `round()` to an integer: round half to even. -/
def round_half_even (q : ℚ) : ℤ :=
  let f := qfloor q
  let r := q - f
  if r < 1/2 then f
  else if 1/2 < r then f + 1
  else if f % 2 = 0 then f else f + 1

/-- `pct_to_pwm`: `clamp(int(round((pct / 100.0) * 255.0)), 0, 255)`. -/
def pct_to_pwm (pct : ℚ) : ℤ := clamp (round_half_even (pct / 100 * 255)) 0 255

def natToStr (n : ℕ) : Str := Nat.toDigits 10 n

def intToStr (i : ℤ) : Str := if i < 0 then '-' :: natToStr i.natAbs else natToStr i.natAbs

/-- Fixed-point rendering with `d` fractional digits of the correctly rounded
value, as `f"{q:.{d}f}"` renders it (sign taken from the value, so a negative
value rounding to zero keeps its minus sign). -/
def fmt_fixed (q : ℚ) (d : ℕ) : Str :=
  let m := round_half_even (q * 10 ^ d)
  let digits := natToStr m.natAbs
  let digits := if digits.length ≤ d then List.replicate (d + 1 - digits.length) '0' ++ digits
                else digits
  let ip := digits.take (digits.length - d)
  let fp := digits.drop (digits.length - d)
  (if q < 0 then ['-'] else []) ++ ip ++ (if d = 0 then [] else '.' :: fp)

/-- `fmt_float`: fixed-point, then strip trailing zeros and a trailing dot;
"0" if the result were empty. -/
def fmt_float (q : ℚ) (d : ℕ) : Str :=
  let s := fmt_fixed q d
  let s := if s.elem '.' then rstripChar '.' (rstripChar '0' s) else s
  if s = [] then ['0'] else s

/-- `fmt_temp`: `str(int(t))` for integral values, else the decimal expansion
(`str(t)` of a parsed finite decimal).  Values whose reduced denominator is
not of the form `2^a * 5^b` cannot arise from the source (every temperature is
a parsed decimal literal); they fall back to a fraction rendering. -/
def fmt_temp (t : ℚ) : Str :=
  if t.den = 1 then intToStr t.num
  else
    match (List.range 40).find? (fun k => 10 ^ k % t.den = 0) with
    | some k => fmt_fixed t k
    | none => intToStr t.num ++ '/' :: natToStr t.den

end CFS

namespace CFS

/-! ## Configuration and processing state of `process_gcode` -/

/-- The arguments of `process_gcode`.  The per-feature dictionaries are
modelled as functions returning `Option`/lists (`dict.get` semantics). -/
structure Config where
  wait_temp : Bool
  skip_first_layers : ℤ
  flow_decimals : ℕ
  feature_temps : String → Option ℚ
  feature_fans_pct : String → Option ℚ
  feature_flow : String → Option ℚ
  feature_gcode_enter : String → List Str
  feature_gcode_exit : String → List Str

/-- The mutable local state of the processing loop.  `processed_line` is the
Python variable of the same name: it survives from one iteration to the next
(and from the dead first loop) and is read by the layer update at the top of
each iteration. -/
structure PState where
  current_temp : Option ℚ
  current_fan_pwm : Option ℤ
  e_relative : Bool
  last_e_abs : ℚ
  last_z : Option ℚ
  baseline_temp : Option ℚ
  baseline_fan_pwm : Option ℤ
  prev_overrode_temp : Bool
  prev_overrode_fan : Bool
  prev_feature_canon : Option String
  current_feature_canon : Option String
  current_layer : ℤ
  processed_line : Str
  deriving DecidableEq

def cmd_temp (cfg : Config) : Str := if cfg.wait_temp then lit "M109" else lit "M104"

/-- Passive classifier state update shared by `insert_raw` (lines 148-175) and
the loop body (lines 357-383): extrusion mode switches, `G92 E`, then the
temperature / fan-off / fan-on chain. -/
def passive_update (st : PState) (s : Str) : PState :=
  let st1 :=
    if matchM82 s then { st with e_relative := false }
    else if matchM83 s then { st with e_relative := true }
    else if matchG92 s then
      match findE s with
      | some (_, _, v, _) => { st with last_e_abs := v }
      | none => st
    else st
  match matchTempCmd s with
  | some t => { st1 with current_temp := some t }
  | none =>
    if matchFanOff s then { st1 with current_fan_pwm := some 0 }
    else
      match matchFanOn s with
      | some p => { st1 with current_fan_pwm := some p }
      | none => st1

/-- `insert_raw`: append the injected line (newline-terminated) and update the
passive state as if the line had been observed in the stream. -/
def insert_raw (st : PState) (line : Str) : PState × Str :=
  if line.getLast? = some '\n' then (passive_update st (rstripNL line), line)
  else (passive_update st line, line ++ ['\n'])

/-- Inject a list of raw lines in order, collecting the emitted lines. -/
def insert_all (st : PState) (ls : List Str) : PState × List Str :=
  match ls with
  | [] => (st, [])
  | l :: rest =>
    let (st1, o) := insert_raw st l
    let (st2, os) := insert_all st1 rest
    (st2, o :: os)

/-- The line text built by `insert_temp`. -/
def temp_line (cfg : Config) (target : ℚ) (reason : Str) : Str :=
  cmd_temp cfg ++ lit " S" ++ fmt_temp target ++ lit " ; set temp (" ++ reason ++ lit ")"

/-- The line text built by `insert_fan_pwm`. -/
def fan_line (pwm : ℤ) (reason : Str) : Str :=
  lit "M106 S" ++ intToStr (clamp pwm 0 255) ++ lit " ; set fan (" ++ reason ++ lit ")"

/-- `apply_flow_to_line` (called with a present factor): rewrite the E word of
a motion line according to the factor and the extrusion mode. -/
def apply_flow_to_line (cfg : Config) (st : PState) (factor : ℚ) (line : Str) :
    PState × Str :=
  if |factor - 1| < 1 / 10 ^ 12 then (st, line)
  else
    let (code_part, sep, comment) := pyPartitionSemi line
    if !matchMove code_part then (st, line)
    else
      match findE code_part with
      | none => (st, line)
      | some (pre, _tok, e_val, post) =>
        let delta := if st.e_relative then e_val else e_val - st.last_e_abs
        if delta ≤ 0 then
          (if st.e_relative then st else { st with last_e_abs := e_val }, line)
        else
          let new_delta := delta * factor
          let new_e := if st.e_relative then new_delta else st.last_e_abs + new_delta
          let new_e_str := fmt_float new_e cfg.flow_decimals
          let code_new := pre ++ new_e_str ++ post
          let st2 := if st.e_relative then st else { st with last_e_abs := new_e }
          (st2, code_new ++ (if sep then ';' :: comment else []))

/-- `update_layer_from_line`: explicit index marker, else layer-change marker,
else Z rise on a motion line of `processed`. -/
def update_layer_from_line (st : PState) (original_line processed : Str) : PState :=
  match matchLayerNum original_line <|> matchLayerWord original_line with
  | some n => { st with current_layer := n, current_feature_canon := none }
  | none =>
    if matchLayerChange original_line then
      { st with
        current_layer := if 0 ≤ st.current_layer then st.current_layer + 1 else 0,
        current_feature_canon := none }
    else
      let code_part := processed.takeWhile (fun c => c ≠ ';')
      if matchMove code_part then
        match findZ code_part with
        | some z_val =>
          match st.last_z with
          | none =>
            { st with last_z := some z_val,
                      current_layer := if st.current_layer < 0 then 0 else st.current_layer }
          | some lz =>
            if lz + 1 / 10 ^ 6 < z_val then
              { st with
                current_layer := if st.current_layer < 0 then 0 else st.current_layer + 1,
                current_feature_canon := none,
                last_z := some z_val }
            else { st with last_z := some z_val }
        | none => st
      else st

/-! ## The per-line step of the main loop (lines 283-385) -/

/-- State after the layer update at the top of the loop body (line 284), which
reads the stale `processed_line` of the previous iteration. -/
def pre_state (st : PState) (line : Str) : PState :=
  update_layer_from_line st line st.processed_line

/-- `skip_active` (line 285). -/
def skip_active (cfg : Config) (st : PState) : Bool :=
  decide (0 < cfg.skip_first_layers ∧ 0 ≤ st.current_layer ∧
          st.current_layer < cfg.skip_first_layers)

/-- The flow factor in effect for the line (line 287). -/
def flow_factor (cfg : Config) (st : PState) (skipA : Bool) : Option ℚ :=
  match st.current_feature_canon, skipA with
  | some cf, false => cfg.feature_flow cf
  | _, _ => none

/-- Processed line and state after the optional flow rewrite (line 288). -/
def flow_result (cfg : Config) (st : PState) (skipA : Bool) (line : Str) :
    PState × Str :=
  match flow_factor cfg st skipA with
  | some f => apply_flow_to_line cfg st f line
  | none => (st, line)

/-- The exit commands emitted at a feature boundary, with their tags
(line 309: nothing when there is no previous feature). -/
def exit_block (cfg : Config) (st : PState) : List Str :=
  match st.prev_feature_canon with
  | some pf => (cfg.feature_gcode_exit pf).map (fun gc => gc ++ lit " ; exit " ++ pf.toList)
  | none => []

/-- Enter commands with their tags (line 328). -/
def enter_block (cfg : Config) (canon : String) : List Str :=
  (cfg.feature_gcode_enter canon).map (fun gc => gc ++ lit " ; enter " ++ canon.toList)

/-- Lines 316-318: temperature restore at a boundary. -/
def restore_temp_step (cfg : Config) (st : PState) (canon : String) : PState × List Str :=
  if st.prev_overrode_temp ∧ cfg.feature_temps canon = none then
    match st.baseline_temp with
    | some b =>
      let (st1, o) :=
        insert_raw st (temp_line cfg b (lit "restore baseline at feature boundary"))
      ({ st1 with current_temp := some b }, [o])
    | none => (st, [])
  else (st, [])

/-- Lines 319-321: fan restore at a boundary. -/
def restore_fan_step (cfg : Config) (st : PState) (canon : String) : PState × List Str :=
  if st.prev_overrode_fan ∧ cfg.feature_fans_pct canon = none then
    match st.baseline_fan_pwm with
    | some b =>
      let (st1, o) :=
        insert_raw st (fan_line b (lit "restore baseline at feature boundary"))
      ({ st1 with current_fan_pwm := some b }, [o])
    | none => (st, [])
  else (st, [])

/-- Lines 332-337: apply the new temperature override or clear the flag. -/
def set_temp_step (cfg : Config) (st : PState) (canon : String) : PState × List Str :=
  match cfg.feature_temps canon with
  | some t =>
    let (st1, o) := insert_raw st (temp_line cfg t canon.toList)
    ({ st1 with current_temp := some t, prev_overrode_temp := true }, [o])
  | none => ({ st with prev_overrode_temp := false }, [])

/-- Lines 339-344: apply the new fan override or clear the flag. -/
def set_fan_step (cfg : Config) (st : PState) (canon : String) : PState × List Str :=
  match (cfg.feature_fans_pct canon).map pct_to_pwm with
  | some pwm =>
    let (st1, o) := insert_raw st (fan_line pwm canon.toList)
    ({ st1 with current_fan_pwm := some pwm, prev_overrode_fan := true }, [o])
  | none => ({ st with prev_overrode_fan := false }, [])

/-- Lines 303-347: the override state machine run at a recognized,
non-skipped feature marker. -/
def feature_boundary (cfg : Config) (st : PState) (canon : String) : PState × List Str :=
  let (st1, out1) := insert_all st (exit_block cfg st)
  let (st2, out2) := restore_temp_step cfg st1 canon
  let (st3, out3) := restore_fan_step cfg st2 canon
  let st4 := { st3 with baseline_temp := st3.current_temp,
                        baseline_fan_pwm := st3.current_fan_pwm }
  let (st5, out5) := insert_all st4 (enter_block cfg canon)
  let (st6, out6) := set_temp_step cfg st5 canon
  let (st7, out7) := set_fan_step cfg st6 canon
  ({ st7 with prev_feature_canon := some canon },
   out1 ++ out2 ++ out3 ++ out5 ++ out6 ++ out7)

/-- One iteration of the effective loop: returns the new state and the chunk
of output lines this iteration appends (the processed line first, then any
injected block). -/
def step (cfg : Config) (st : PState) (line : Str) : PState × List Str :=
  let stA := pre_state st line
  let skipA := skip_active cfg stA
  let (stB, processed) := flow_result cfg stA skipA line
  match typeValue processed with
  | some tv =>
    let stC := { stB with
                 current_layer := if stB.current_layer < 0 then 0 else stB.current_layer }
    let canon := match_canonical tv
    let stD := { stC with current_feature_canon := canon }
    match canon, skipA with
    | some c, false =>
      let (stE, block) := feature_boundary cfg stD c
      ({ stE with processed_line := processed }, processed :: block)
    | _, _ =>
      ({ stD with prev_feature_canon := canon, processed_line := processed }, [processed])
  | none =>
    let stC := passive_update stB (rstripNL processed)
    let stD := update_layer_from_line stC line processed
    ({ stD with processed_line := processed }, [processed])

/-- Run the loop over the remaining lines, concatenating the emitted chunks. -/
def run_lines (cfg : Config) : PState → List Str → PState × List Str
  | st, [] => (st, [])
  | st, l :: ls =>
    let (st1, chunk) := step cfg st l
    let (st2, rest) := run_lines cfg st1 ls
    (st2, chunk ++ rest)

/-- The state in which the effective loop starts: the reset block
(lines 269-281) sets `current_layer = 0` (the initialisation at line 133 used
`-1`), and `processed_line` still holds the last input line, left over from
the dead first loop (lines 263-267). -/
def init_state (lines : List Str) : PState :=
  { current_temp := none
    current_fan_pwm := none
    e_relative := false
    last_e_abs := 0
    last_z := none
    baseline_temp := none
    baseline_fan_pwm := none
    prev_overrode_temp := false
    prev_overrode_fan := false
    prev_feature_canon := none
    current_feature_canon := none
    current_layer := 0
    processed_line := (lines.getLast?).getD [] }

/-- The full pass: output lines produced for the given input lines. -/
def process_gcode_lines (cfg : Config) (lines : List Str) : List Str :=
  (run_lines cfg (init_state lines) lines).2

/-- The final loop state of the pass. -/
def final_state (cfg : Config) (lines : List Str) : PState :=
  (run_lines cfg (init_state lines) lines).1

/-- The whole program around the pass: opening the input yields its lines or
fails (`FileNotFoundError`); on failure the process logs and exits with
status 1 having written nothing, on success the document is rewritten with
the output of the pass and the process exits with status 0. -/
def process_gcode_run (cfg : Config) (contents : Option (List Str)) :
    Except ℤ (List Str) :=
  match contents with
  | none => Except.error 1
  | some lines => Except.ok (process_gcode_lines cfg lines)

end CFS

namespace CFS

/-! ## Structural lemmas about the engine -/

/-- The emitted form of an injected line. -/
def ensureNL (l : Str) : Str := if l.getLast? = some '\n' then l else l ++ ['\n']

theorem insert_raw_snd (st : PState) (l : Str) : (insert_raw st l).2 = ensureNL l := by
  unfold insert_raw ensureNL
  split <;> rfl

theorem insert_all_snd (ls : List Str) : ∀ st : PState, (insert_all st ls).2 = ls.map ensureNL := by
  induction ls with
  | nil => intro st; rfl
  | cons l rest ih =>
    intro st
    unfold insert_all
    rw [show (insert_raw st l) = ((insert_raw st l).1, (insert_raw st l).2) from rfl]
    simp only [insert_raw_snd, List.map_cons]
    rw [show (insert_all (insert_raw st l).1 rest)
          = ((insert_all (insert_raw st l).1 rest).1, (insert_all (insert_raw st l).1 rest).2)
        from rfl]
    simp [ih]

theorem pyPartitionSemi_fst (s : Str) :
    (pyPartitionSemi s).1 = s.takeWhile (fun c => c ≠ ';') := by
  induction s with
  | nil => rfl
  | cons c r ih =>
    unfold pyPartitionSemi
    by_cases hc : c = ';'
    · subst hc; simp [List.takeWhile_cons]
    · simp only [hc, if_false]
      rw [show (pyPartitionSemi r) = ((pyPartitionSemi r).1, (pyPartitionSemi r).2) from rfl]
      simp [List.takeWhile_cons, hc, ih]

theorem matchMove_of_dropSpaces {s t : Str} (h : dropSpaces s = dropSpaces t) :
    matchMove s = matchMove t := by
  unfold matchMove
  rw [h]

theorem dropSpaces_cons_of_space {c : Char} (h : pyIsSpace c = true) (t : Str) :
    dropSpaces (c :: t) = dropSpaces t := by
  unfold dropSpaces
  exact List.dropWhile_cons_of_pos h

theorem pyIsSpace_ne_semi {c : Char} (h : pyIsSpace c = true) : c ≠ ';' := by
  intro hc
  subst hc
  exact absurd h (by decide)

/-- A line whose whitespace-stripped form begins with `;` has an all-space
part before the first `;`, which is not a motion command. -/
theorem matchMove_takeWhile_semi (ws r : Str) (hws : ∀ c ∈ ws, pyIsSpace c = true) :
    matchMove ((ws ++ ';' :: r).takeWhile (fun c => c ≠ ';')) = false := by
  induction ws with
  | nil =>
    simp only [List.nil_append]
    rw [List.takeWhile_cons_of_neg (by simp)]
    rfl
  | cons c ws ih =>
    have hc : pyIsSpace c = true := hws c (List.mem_cons_self c ws)
    have hcs : c ≠ ';' := pyIsSpace_ne_semi hc
    simp only [List.cons_append]
    rw [List.takeWhile_cons_of_pos (by simpa using hcs)]
    rw [matchMove_of_dropSpaces (dropSpaces_cons_of_space hc _)]
    exact ih (fun d hd => hws d (List.mem_cons_of_mem c hd))

/-- Every line equals its newline-stripped core, possibly plus one newline. -/
theorem stripOneNL_eq (line : Str) :
    line = stripOneNL line ∨ line = stripOneNL line ++ ['\n'] := by
  unfold stripOneNL
  by_cases hlast : line.getLast? = some '\n'
  · right
    rw [if_pos hlast]
    rcases line with _ | ⟨a, as⟩
    · simp at hlast
    · have hne : (a :: as) ≠ [] := by simp
      conv_lhs => rw [← List.dropLast_append_getLast hne]
      have hg : (a :: as).getLast hne = '\n' := by
        rw [List.getLast?_eq_getLast _ hne] at hlast
        exact Option.some_injective _ hlast
      rw [hg]
  · left
    rw [if_neg hlast]

theorem dropSpaces_decomp {s t : Str} (h : dropSpaces s = t) :
    s = s.takeWhile pyIsSpace ++ t ∧ ∀ c ∈ s.takeWhile pyIsSpace, pyIsSpace c = true := by
  constructor
  · rw [← h]
    exact (List.takeWhile_append_dropWhile (p := pyIsSpace) (l := s)).symm
  · exact fun c hc => List.mem_takeWhile_imp hc

/-- A feature-marker line decomposes as whitespace, `;`, rest (with perhaps a
trailing newline). -/
theorem typeValue_decomp {line tv : Str} (h : typeValue line = some tv) :
    ∃ ws r, (∀ c ∈ ws, pyIsSpace c = true) ∧ line = ws ++ ';' :: r := by
  unfold typeValue at h
  by_cases hnl : (stripOneNL line).elem '\n' = true
  · rw [if_pos hnl] at h
    exact Option.noConfusion h
  · rw [if_neg hnl] at h
    rcases hd : dropSpaces (stripOneNL line) with _ | ⟨c, r⟩
    · rw [hd] at h
      exact Option.noConfusion h
    · rw [hd] at h
      dsimp only at h
      by_cases hc : c = ';'
      · subst hc
        obtain ⟨hsplit, hws⟩ := dropSpaces_decomp hd
        rcases stripOneNL_eq line with hline | hline
        · exact ⟨(stripOneNL line).takeWhile pyIsSpace, r, hws, hline.trans hsplit⟩
        · refine ⟨(stripOneNL line).takeWhile pyIsSpace, r ++ ['\n'], hws, ?_⟩
          calc line = stripOneNL line ++ ['\n'] := hline
            _ = ((stripOneNL line).takeWhile pyIsSpace ++ ';' :: r) ++ ['\n'] := by
                  conv_lhs => rw [hsplit]
            _ = (stripOneNL line).takeWhile pyIsSpace ++ ';' :: (r ++ ['\n']) := by
                  simp
      · rw [if_neg hc] at h
        exact Option.noConfusion h

/-- The flow rewriter never touches a feature-marker line (its pre-comment
part is all whitespace, hence not a motion command). -/
theorem marker_flow_id {line tv : Str} (h : typeValue line = some tv)
    (cfg : Config) (st : PState) (f : ℚ) :
    apply_flow_to_line cfg st f line = (st, line) := by
  obtain ⟨ws, r, hws, hline⟩ := typeValue_decomp h
  have hmv : matchMove ((pyPartitionSemi line).1) = false := by
    rw [pyPartitionSemi_fst, hline]
    exact matchMove_takeWhile_semi ws r hws
  unfold apply_flow_to_line
  split
  · rfl
  · rw [show (pyPartitionSemi line)
        = ((pyPartitionSemi line).1, (pyPartitionSemi line).2.1, (pyPartitionSemi line).2.2)
      from rfl]
    simp [hmv]

theorem marker_flow_result {line tv : Str} (h : typeValue line = some tv)
    (cfg : Config) (st : PState) (skipA : Bool) :
    flow_result cfg st skipA line = (st, line) := by
  unfold flow_result
  rcases hf : flow_factor cfg st skipA with _ | f
  · rfl
  · exact marker_flow_id h cfg st f

theorem flow_factor_skip (cfg : Config) (st : PState) : flow_factor cfg st true = none := by
  unfold flow_factor
  rcases st.current_feature_canon with _ | c <;> rfl

end CFS

namespace CFS

/-- `passive_update` touches only the temperature, fan, extrusion-mode and
accumulator fields. -/
theorem passive_update_base (st : PState) (s : Str) :
    (passive_update st s).last_z = st.last_z ∧
    (passive_update st s).baseline_temp = st.baseline_temp ∧
    (passive_update st s).baseline_fan_pwm = st.baseline_fan_pwm ∧
    (passive_update st s).prev_overrode_temp = st.prev_overrode_temp ∧
    (passive_update st s).prev_overrode_fan = st.prev_overrode_fan ∧
    (passive_update st s).prev_feature_canon = st.prev_feature_canon ∧
    (passive_update st s).current_feature_canon = st.current_feature_canon ∧
    (passive_update st s).current_layer = st.current_layer ∧
    (passive_update st s).processed_line = st.processed_line := by
  unfold passive_update
  rcases ht : matchTempCmd s with _ | t
  all_goals rcases hfo : matchFanOn s with _ | p
  all_goals rcases hfe : findE s with _ | ⟨a, b, v, d⟩
  all_goals by_cases h82 : matchM82 s = true
  all_goals by_cases h83 : matchM83 s = true
  all_goals by_cases h92 : matchG92 s = true
  all_goals by_cases hoff : matchFanOff s = true
  all_goals simp [ht, hfo, hfe, h82, h83, h92, hoff]

/-- Without a temperature command the tracked temperature is untouched. -/
theorem passive_update_temp_eq (st : PState) (s : Str) (h : matchTempCmd s = none) :
    (passive_update st s).current_temp = st.current_temp := by
  unfold passive_update
  rcases hfo : matchFanOn s with _ | p
  all_goals rcases hfe : findE s with _ | ⟨a, b, v, d⟩
  all_goals by_cases h82 : matchM82 s = true
  all_goals by_cases h83 : matchM83 s = true
  all_goals by_cases h92 : matchG92 s = true
  all_goals by_cases hoff : matchFanOff s = true
  all_goals simp [h, hfo, hfe, h82, h83, h92, hoff]

/-- Without any fan command the tracked fan duty is untouched. -/
theorem passive_update_fan_eq (st : PState) (s : Str) (hoff : matchFanOff s = false)
    (hon : matchFanOn s = none) :
    (passive_update st s).current_fan_pwm = st.current_fan_pwm := by
  unfold passive_update
  rcases ht : matchTempCmd s with _ | t
  all_goals rcases hfe : findE s with _ | ⟨a, b, v, d⟩
  all_goals by_cases h82 : matchM82 s = true
  all_goals by_cases h83 : matchM83 s = true
  all_goals by_cases h92 : matchG92 s = true
  all_goals simp [ht, hoff, hon, hfe, h82, h83, h92]

theorem insert_raw_base (st : PState) (l : Str) :
    ((insert_raw st l).1).last_z = st.last_z ∧
    ((insert_raw st l).1).baseline_temp = st.baseline_temp ∧
    ((insert_raw st l).1).baseline_fan_pwm = st.baseline_fan_pwm ∧
    ((insert_raw st l).1).prev_overrode_temp = st.prev_overrode_temp ∧
    ((insert_raw st l).1).prev_overrode_fan = st.prev_overrode_fan ∧
    ((insert_raw st l).1).prev_feature_canon = st.prev_feature_canon ∧
    ((insert_raw st l).1).current_feature_canon = st.current_feature_canon ∧
    ((insert_raw st l).1).current_layer = st.current_layer ∧
    ((insert_raw st l).1).processed_line = st.processed_line := by
  unfold insert_raw
  split <;> exact passive_update_base st _

theorem insert_all_base (ls : List Str) : ∀ st : PState,
    ((insert_all st ls).1).last_z = st.last_z ∧
    ((insert_all st ls).1).baseline_temp = st.baseline_temp ∧
    ((insert_all st ls).1).baseline_fan_pwm = st.baseline_fan_pwm ∧
    ((insert_all st ls).1).prev_overrode_temp = st.prev_overrode_temp ∧
    ((insert_all st ls).1).prev_overrode_fan = st.prev_overrode_fan ∧
    ((insert_all st ls).1).prev_feature_canon = st.prev_feature_canon ∧
    ((insert_all st ls).1).current_feature_canon = st.current_feature_canon ∧
    ((insert_all st ls).1).current_layer = st.current_layer ∧
    ((insert_all st ls).1).processed_line = st.processed_line := by
  induction ls with
  | nil => intro st; exact ⟨rfl, rfl, rfl, rfl, rfl, rfl, rfl, rfl, rfl⟩
  | cons l rest ih =>
    intro st
    unfold insert_all
    rw [show (insert_raw st l) = ((insert_raw st l).1, (insert_raw st l).2) from rfl]
    dsimp only
    rw [show (insert_all (insert_raw st l).1 rest)
          = ((insert_all (insert_raw st l).1 rest).1, (insert_all (insert_raw st l).1 rest).2)
        from rfl]
    dsimp only
    obtain ⟨e1, e2, e3, e4, e5, e6, e7, e8, e9⟩ := insert_raw_base st l
    obtain ⟨f1, f2, f3, f4, f5, f6, f7, f8, f9⟩ := ih (insert_raw st l).1
    exact ⟨f1.trans e1, f2.trans e2, f3.trans e3, f4.trans e4, f5.trans e5,
           f6.trans e6, f7.trans e7, f8.trans e8, f9.trans e9⟩

theorem temp_line_getLast (cfg : Config) (t : ℚ) (r : Str) :
    (temp_line cfg t r).getLast? = some ')' := by
  unfold temp_line
  rw [show lit ")" = [')'] from rfl]
  exact List.getLast?_concat _

theorem fan_line_getLast (p : ℤ) (r : Str) :
    (fan_line p r).getLast? = some ')' := by
  unfold fan_line
  rw [show lit ")" = [')'] from rfl]
  exact List.getLast?_concat _

theorem insert_raw_temp_line (st : PState) (cfg : Config) (t : ℚ) (r : Str) :
    insert_raw st (temp_line cfg t r)
      = (passive_update st (temp_line cfg t r), temp_line cfg t r ++ ['\n']) := by
  unfold insert_raw
  rw [if_neg (by simp [temp_line_getLast])]

theorem insert_raw_fan_line (st : PState) (p : ℤ) (r : Str) :
    insert_raw st (fan_line p r)
      = (passive_update st (fan_line p r), fan_line p r ++ ['\n']) := by
  unfold insert_raw
  rw [if_neg (by simp [fan_line_getLast])]

theorem matchTempCmd_fan_line (p : ℤ) (r : Str) : matchTempCmd (fan_line p r) = none := rfl

theorem matchFanOff_temp_line (cfg : Config) (t : ℚ) (r : Str) :
    matchFanOff (temp_line cfg t r) = false := by
  unfold temp_line cmd_temp
  rcases hw : cfg.wait_temp with _ | _ <;> rfl

theorem matchFanOn_temp_line (cfg : Config) (t : ℚ) (r : Str) :
    matchFanOn (temp_line cfg t r) = none := by
  unfold temp_line cmd_temp
  rcases hw : cfg.wait_temp with _ | _ <;> rfl

/-- Injecting a temperature line never changes the tracked fan duty. -/
theorem passive_update_temp_line_fan (st : PState) (cfg : Config) (t : ℚ) (r : Str) :
    (passive_update st (temp_line cfg t r)).current_fan_pwm = st.current_fan_pwm :=
  passive_update_fan_eq st _ (matchFanOff_temp_line cfg t r) (matchFanOn_temp_line cfg t r)

/-- Injecting a fan line never changes the tracked temperature. -/
theorem passive_update_fan_line_temp (st : PState) (p : ℤ) (r : Str) :
    (passive_update st (fan_line p r)).current_temp = st.current_temp :=
  passive_update_temp_eq st _ (matchTempCmd_fan_line p r)

end CFS

namespace CFS

/-- When the previous feature overrode the temperature, the new feature has no
temperature override and a baseline is stored, the restore step injects
exactly the baseline-restore command and records the baseline as current. -/
theorem restore_temp_fires (cfg : Config) (st : PState) (c : String) (b : ℚ)
    (h1 : st.prev_overrode_temp = true) (h2 : cfg.feature_temps c = none)
    (h3 : st.baseline_temp = some b) :
    restore_temp_step cfg st c
      = ({ passive_update st (temp_line cfg b (lit "restore baseline at feature boundary"))
             with current_temp := some b },
         [temp_line cfg b (lit "restore baseline at feature boundary") ++ ['\n']]) := by
  unfold restore_temp_step
  rw [if_pos ⟨h1, h2⟩, h3]
  dsimp only
  rw [insert_raw_temp_line]

theorem restore_fan_fires (cfg : Config) (st : PState) (c : String) (p : ℤ)
    (h1 : st.prev_overrode_fan = true) (h2 : cfg.feature_fans_pct c = none)
    (h3 : st.baseline_fan_pwm = some p) :
    restore_fan_step cfg st c
      = ({ passive_update st (fan_line p (lit "restore baseline at feature boundary"))
             with current_fan_pwm := some p },
         [fan_line p (lit "restore baseline at feature boundary") ++ ['\n']]) := by
  unfold restore_fan_step
  rw [if_pos ⟨h1, h2⟩, h3]
  dsimp only
  rw [insert_raw_fan_line]

/-- The fan-restore step never changes the tracked temperature. -/
theorem restore_fan_step_temp (cfg : Config) (st : PState) (c : String) :
    (restore_fan_step cfg st c).1.current_temp = st.current_temp := by
  unfold restore_fan_step
  split
  · rcases hb : st.baseline_fan_pwm with _ | p
    · rfl
    · dsimp only
      rw [insert_raw_fan_line]
      dsimp only
      exact passive_update_fan_line_temp st p _
  · rfl

/-- The temperature-restore step never changes the tracked fan duty. -/
theorem restore_temp_step_fan (cfg : Config) (st : PState) (c : String) :
    (restore_temp_step cfg st c).1.current_fan_pwm = st.current_fan_pwm := by
  unfold restore_temp_step
  split
  · rcases hb : st.baseline_temp with _ | b
    · rfl
    · dsimp only
      rw [insert_raw_temp_line]
      dsimp only
      exact passive_update_temp_line_fan st cfg b _
  · rfl

/-- The temperature-restore step touches neither the fan bookkeeping nor the
other non-temperature state. -/
theorem restore_temp_step_base (cfg : Config) (st : PState) (c : String) :
    (restore_temp_step cfg st c).1.prev_overrode_fan = st.prev_overrode_fan ∧
    (restore_temp_step cfg st c).1.baseline_fan_pwm = st.baseline_fan_pwm := by
  unfold restore_temp_step
  split
  · rcases hb : st.baseline_temp with _ | b
    · exact ⟨rfl, rfl⟩
    · dsimp only
      rw [insert_raw_temp_line]
      dsimp only
      obtain ⟨_, _, e3, _, e5, _⟩ := passive_update_base st (temp_line cfg b _)
      exact ⟨e5, e3⟩
  · exact ⟨rfl, rfl⟩

theorem set_temp_step_none (cfg : Config) (st : PState) (c : String)
    (h : cfg.feature_temps c = none) :
    set_temp_step cfg st c = ({ st with prev_overrode_temp := false }, []) := by
  unfold set_temp_step
  rw [h]

theorem set_fan_step_none (cfg : Config) (st : PState) (c : String)
    (h : cfg.feature_fans_pct c = none) :
    set_fan_step cfg st c = ({ st with prev_overrode_fan := false }, []) := by
  unfold set_fan_step
  rw [h]
  rfl

/-- The fan-override step never changes the tracked temperature. -/
theorem set_fan_step_temp (cfg : Config) (st : PState) (c : String) :
    (set_fan_step cfg st c).1.current_temp = st.current_temp := by
  unfold set_fan_step
  rcases hf : (cfg.feature_fans_pct c).map pct_to_pwm with _ | pwm
  · rfl
  · dsimp only
    rw [insert_raw_fan_line]
    dsimp only
    exact passive_update_fan_line_temp st pwm _

/-- The temperature-override step never changes the tracked fan duty. -/
theorem set_temp_step_fan (cfg : Config) (st : PState) (c : String) :
    (set_temp_step cfg st c).1.current_fan_pwm = st.current_fan_pwm := by
  unfold set_temp_step
  rcases hf : cfg.feature_temps c with _ | t
  · rfl
  · dsimp only
    rw [insert_raw_temp_line]
    dsimp only
    exact passive_update_temp_line_fan st cfg t _

end CFS

namespace CFS

/-- Temperature side of boundary restoration: with an active previous
temperature override, no new override and a stored baseline, the boundary
block contains the baseline-restore command, and (when no enter commands are
configured) the engine leaves the boundary tracking the baseline
temperature. -/
theorem boundary_restores_temp (cfg : Config) (st : PState) (c : String) (b : ℚ)
    (h1 : st.prev_overrode_temp = true) (h2 : cfg.feature_temps c = none)
    (h3 : st.baseline_temp = some b) :
    (temp_line cfg b (lit "restore baseline at feature boundary") ++ ['\n'])
        ∈ (feature_boundary cfg st c).2 ∧
    (cfg.feature_gcode_enter c = [] →
      (feature_boundary cfg st c).1.current_temp = some b) := by
  constructor
  · unfold feature_boundary
    rcases hi1 : insert_all st (exit_block cfg st) with ⟨st1, out1⟩
    dsimp only
    have hb1 := insert_all_base (exit_block cfg st) st
    rw [hi1] at hb1
    obtain ⟨_, b2, _, b4, _, _, _, _, _⟩ := hb1
    have hrt := restore_temp_fires cfg st1 c b (b4.trans h1) h2 (b2.trans h3)
    rw [hrt]
    dsimp only
    rcases hr3 : restore_fan_step cfg _ c with ⟨st3, out3⟩
    dsimp only
    rcases hi5 : insert_all _ (enter_block cfg c) with ⟨st5, out5⟩
    dsimp only
    rw [set_temp_step_none cfg st5 c h2]
    dsimp only
    rcases hs7 : set_fan_step cfg _ c with ⟨st7, out7⟩
    dsimp only
    simp [List.mem_append]
  · intro henter
    have he : enter_block cfg c = [] := by
      unfold enter_block
      rw [henter]
      rfl
    unfold feature_boundary
    rcases hi1 : insert_all st (exit_block cfg st) with ⟨st1, out1⟩
    dsimp only
    have hb1 := insert_all_base (exit_block cfg st) st
    rw [hi1] at hb1
    obtain ⟨_, b2, _, b4, _, _, _, _, _⟩ := hb1
    have hrt := restore_temp_fires cfg st1 c b (b4.trans h1) h2 (b2.trans h3)
    rw [hrt]
    dsimp only
    rcases hr3 : restore_fan_step cfg _ c with ⟨st3, out3⟩
    dsimp only
    rw [he]
    simp only [insert_all]
    rw [set_temp_step_none cfg _ c h2]
    dsimp only
    rcases hs7 : set_fan_step cfg _ c with ⟨st7, out7⟩
    dsimp only
    show st7.current_temp = some b
    have g7 := congrArg (fun q : PState × List Str => q.1.current_temp) hs7
    dsimp only at g7
    rw [set_fan_step_temp] at g7
    have g3 := congrArg (fun q : PState × List Str => q.1.current_temp) hr3
    dsimp only at g3
    rw [restore_fan_step_temp] at g3
    rw [← g7]
    exact g3.symm

/-- Fan side of boundary restoration, mirroring the temperature side. -/
theorem boundary_restores_fan (cfg : Config) (st : PState) (c : String) (p : ℤ)
    (h1 : st.prev_overrode_fan = true) (h2 : cfg.feature_fans_pct c = none)
    (h3 : st.baseline_fan_pwm = some p) :
    (fan_line p (lit "restore baseline at feature boundary") ++ ['\n'])
        ∈ (feature_boundary cfg st c).2 ∧
    (cfg.feature_gcode_enter c = [] →
      (feature_boundary cfg st c).1.current_fan_pwm = some p) := by
  constructor
  · unfold feature_boundary
    rcases hi1 : insert_all st (exit_block cfg st) with ⟨st1, out1⟩
    dsimp only
    have hb1 := insert_all_base (exit_block cfg st) st
    rw [hi1] at hb1
    obtain ⟨_, _, b3, _, b5, _, _, _, _⟩ := hb1
    rcases hr2 : restore_temp_step cfg st1 c with ⟨st2, out2⟩
    dsimp only
    have hbase := restore_temp_step_base cfg st1 c
    rw [hr2] at hbase
    obtain ⟨f5, f3⟩ := hbase
    have hrf := restore_fan_fires cfg st2 c p (f5.trans (b5.trans h1)) h2
      (f3.trans (b3.trans h3))
    rw [hrf]
    dsimp only
    rcases hi5 : insert_all _ (enter_block cfg c) with ⟨st5, out5⟩
    dsimp only
    rcases hs6 : set_temp_step cfg _ c with ⟨st6, out6⟩
    dsimp only
    rw [set_fan_step_none cfg st6 c h2]
    dsimp only
    simp [List.mem_append]
  · intro henter
    have he : enter_block cfg c = [] := by
      unfold enter_block
      rw [henter]
      rfl
    unfold feature_boundary
    rcases hi1 : insert_all st (exit_block cfg st) with ⟨st1, out1⟩
    dsimp only
    have hb1 := insert_all_base (exit_block cfg st) st
    rw [hi1] at hb1
    obtain ⟨_, _, b3, _, b5, _, _, _, _⟩ := hb1
    rcases hr2 : restore_temp_step cfg st1 c with ⟨st2, out2⟩
    dsimp only
    have hbase := restore_temp_step_base cfg st1 c
    rw [hr2] at hbase
    obtain ⟨f5, f3⟩ := hbase
    have hrf := restore_fan_fires cfg st2 c p (f5.trans (b5.trans h1)) h2
      (f3.trans (b3.trans h3))
    rw [hrf]
    dsimp only
    rw [he]
    simp only [insert_all]
    rcases hs6 : set_temp_step cfg _ c with ⟨st6, out6⟩
    dsimp only
    rw [set_fan_step_none cfg st6 c h2]
    dsimp only
    show st6.current_fan_pwm = some p
    have g6 := congrArg (fun q : PState × List Str => q.1.current_fan_pwm) hs6
    dsimp only at g6
    rw [set_temp_step_fan] at g6
    exact g6.symm

end CFS

namespace CFS

/-- Flow rewriting on a motion line carrying a parsed E value: a
non-positive delta leaves the text alone but advances the absolute
accumulator; a positive delta replaces exactly the E number token and
advances the accumulator to the replacement value. -/
theorem apply_flow_cases (cfg : Config) (st : PState) (f : ℚ)
    (line cp cm pre tok post : Str) (sep : Bool) (v : ℚ)
    (hp : pyPartitionSemi line = (cp, sep, cm))
    (hid : ¬ |f - 1| < 1 / 10 ^ 12)
    (hmv : matchMove cp = true)
    (he : findE cp = some (pre, tok, v, post)) :
    ((if st.e_relative then v else v - st.last_e_abs) ≤ 0 →
        apply_flow_to_line cfg st f line =
          ((if st.e_relative then st else { st with last_e_abs := v }), line)) ∧
    (0 < (if st.e_relative then v else v - st.last_e_abs) →
        apply_flow_to_line cfg st f line =
          ((if st.e_relative then st
            else { st with last_e_abs := st.last_e_abs + (v - st.last_e_abs) * f }),
           pre ++ fmt_float (if st.e_relative then v * f
                             else st.last_e_abs + (v - st.last_e_abs) * f)
                    cfg.flow_decimals
               ++ post ++ (if sep then ';' :: cm else []))) := by
  unfold apply_flow_to_line
  rw [if_neg hid, hp]
  dsimp only
  rw [hmv]
  rw [he]
  dsimp only
  constructor
  · intro hd
    rw [if_pos hd]
    rfl
  · intro hd
    rw [if_neg (not_le.mpr hd)]
    rcases her : st.e_relative with _ | _ <;> rfl

/-- A line without a parsable E word in its pre-comment part is never
rewritten and never moves the accumulator. -/
theorem apply_flow_no_e (cfg : Config) (st : PState) (f : ℚ) (line : Str)
    (h : findE ((pyPartitionSemi line).1) = none) :
    apply_flow_to_line cfg st f line = (st, line) := by
  unfold apply_flow_to_line
  split
  · rfl
  · rw [show pyPartitionSemi line
        = ((pyPartitionSemi line).1, (pyPartitionSemi line).2.1, (pyPartitionSemi line).2.2)
      from rfl]
    dsimp only
    rcases hmv : matchMove (pyPartitionSemi line).1 with _ | _
    · rfl
    · rw [h]
      rfl

/-- A line matching no layer marker and carrying no parsable Z word leaves the
layer state untouched. -/
theorem update_layer_inert (st : PState) (orig proc : Str)
    (h1 : matchLayerNum orig = none) (h2 : matchLayerWord orig = none)
    (h3 : matchLayerChange orig = false)
    (h4 : findZ (proc.takeWhile (fun c => c ≠ ';')) = none) :
    update_layer_from_line st orig proc = st := by
  unfold update_layer_from_line
  rw [h1, h2]
  simp only [Option.none_orElse]
  rw [h3]
  simp only [Bool.false_eq_true, if_false]
  by_cases hmv : matchMove (proc.takeWhile (fun c => c ≠ ';')) = true
  · rw [if_pos hmv, h4]
  · rw [if_neg hmv]

/-- Every loop iteration emits the flow-processed input line first: no line is
ever dropped from the output. -/
theorem step_chunk_head (cfg : Config) (st : PState) (line : Str) :
    ∃ st2 tail, step cfg st line =
      (st2, (flow_result cfg (pre_state st line) (skip_active cfg (pre_state st line)) line).2
             :: tail) := by
  simp only [step]
  rcases hfr : flow_result cfg (pre_state st line) (skip_active cfg (pre_state st line)) line
    with ⟨stB, processed⟩
  dsimp only
  rcases htv : typeValue processed with _ | tv
  · exact ⟨_, _, rfl⟩
  · dsimp only
    rcases hc : match_canonical tv with _ | c
    · exact ⟨_, _, rfl⟩
    · rcases hsk : skip_active cfg (pre_state st line) with _ | _
      · dsimp only
        exact ⟨_, _, rfl⟩
      · exact ⟨_, _, rfl⟩

/-- A recognized, non-skipped feature marker is emitted as-is, and its whole
injected block follows it inside the same chunk. -/
theorem marker_step_chunk (cfg : Config) (st : PState) (line tv : Str) (c : String)
    (h1 : typeValue line = some tv) (h2 : match_canonical tv = some c)
    (h3 : skip_active cfg (pre_state st line) = false) :
    ∃ st2 block, step cfg st line = (st2, line :: block) ∧
      block = (feature_boundary cfg
        { (pre_state st line) with
          current_layer := if (pre_state st line).current_layer < 0 then 0
                           else (pre_state st line).current_layer,
          current_feature_canon := some c } c).2 := by
  simp only [step]
  rw [marker_flow_result h1]
  dsimp only
  rw [h1]
  dsimp only
  rw [h2, h3]
  dsimp only
  exact ⟨_, _, rfl, rfl⟩

/-- While the skip span is active the iteration emits exactly the unmodified
input line: no flow rewrite and no injection of any kind. -/
theorem skip_step_passthrough (cfg : Config) (st : PState) (line : Str)
    (h : skip_active cfg (pre_state st line) = true) :
    (step cfg st line).2 = [line] := by
  simp only [step]
  rw [h]
  rw [show flow_result cfg (pre_state st line) true line = (pre_state st line, line) from by
        unfold flow_result; rw [flow_factor_skip]]
  dsimp only
  rcases htv : typeValue line with _ | tv
  · rfl
  · dsimp only
    rcases hc : match_canonical tv with _ | c <;> rfl

/-- A feature marker whose text has no canonical match passes through alone
and overwrites the previous-feature record with `none`. -/
theorem unknown_marker_step (cfg : Config) (st : PState) (line tv : Str)
    (h1 : typeValue line = some tv) (hnone : match_canonical tv = none) :
    ∃ st2, step cfg st line = (st2, [line]) ∧ st2.prev_feature_canon = none := by
  simp only [step]
  rw [marker_flow_result h1]
  dsimp only
  rw [h1]
  dsimp only
  rw [hnone]
  exact ⟨_, rfl, rfl⟩

/-- The boundary block always starts with the exit commands derived from the
previous-feature record. -/
theorem boundary_exit_prefix (cfg : Config) (st : PState) (c : String) :
    ∃ rest, (feature_boundary cfg st c).2 = (exit_block cfg st).map ensureNL ++ rest := by
  unfold feature_boundary
  rcases hi1 : insert_all st (exit_block cfg st) with ⟨st1, out1⟩
  dsimp only
  have h1 : out1 = (exit_block cfg st).map ensureNL := by
    have h := insert_all_snd (exit_block cfg st) st
    rw [hi1] at h
    exact h
  rcases hr2 : restore_temp_step cfg st1 c with ⟨st2, out2⟩
  dsimp only
  rcases hr3 : restore_fan_step cfg st2 c with ⟨st3, out3⟩
  dsimp only
  rcases hi5 : insert_all _ (enter_block cfg c) with ⟨st5, out5⟩
  dsimp only
  rcases hs6 : set_temp_step cfg st5 c with ⟨st6, out6⟩
  dsimp only
  rcases hs7 : set_fan_step cfg st6 c with ⟨st7, out7⟩
  dsimp only
  refine ⟨out2 ++ out3 ++ out5 ++ out6 ++ out7, ?_⟩
  rw [h1]
  simp [List.append_assoc]

/-- With no previous-feature record there are no exit commands. -/
theorem exit_block_of_none (cfg : Config) (st : PState)
    (h : st.prev_feature_canon = none) : exit_block cfg st = [] := by
  unfold exit_block
  rw [h]

/-- After the last input line the loop emits nothing further. -/
theorem run_lines_nil (cfg : Config) (st : PState) : run_lines cfg st [] = (st, []) := rfl

end CFS

namespace CFS

/-! ## Concrete configurations and documents used by the claims -/

/-- Configuration with every override absent (all `process_gcode` defaults). -/
def cfgPlain : Config :=
  ⟨false, 0, 5, fun _ => none, fun _ => none, fun _ => none, fun _ => [], fun _ => []⟩

/-- Flow factor 1.1 for `infill`, nothing else. -/
def cfgFlowInfill : Config :=
  ⟨false, 0, 5, fun _ => none, fun _ => none,
   fun c => if c = "infill" then some (11 / 10) else none, fun _ => [], fun _ => []⟩

/-- Temperature 210 for `bridge`, nothing else. -/
def cfgTempBridge : Config :=
  ⟨false, 0, 5, fun c => if c = "bridge" then some 210 else none, fun _ => none,
   fun _ => none, fun _ => [], fun _ => []⟩

/-- One enter command for `infill`, nothing else. -/
def cfgEnterInfill : Config :=
  ⟨false, 0, 5, fun _ => none, fun _ => none, fun _ => none,
   fun c => if c = "infill" then [lit "M900 K0.5"] else [], fun _ => []⟩

/-- Temperature 250 for `infill` and `skip_first_layers = 2`. -/
def cfgSkipTemp : Config :=
  ⟨false, 2, 5, fun c => if c = "infill" then some 250 else none, fun _ => none,
   fun _ => none, fun _ => [], fun _ => []⟩

def docLayerChange : List Str := [lit ";LAYER_CHANGE\n"]

def docZSeq : List Str := [lit "G1 X0\n", lit "G1 Z5\n", lit "G1 Z10\n"]

def docMove : List Str := [lit "G1 X0\n"]

def docFlow : List Str := [lit "; TYPE: infill\n", lit "G1 X10 E5\n"]

def docTemp : List Str := [lit "M104 S190\n", lit "; TYPE: bridge\n", lit "; TYPE: infill\n"]

def docEnter : List Str := [lit "; TYPE: infill\n", lit "G1 X0\n"]

def docSkipNeg : List Str := [lit ";LAYER: -1\n", lit "; TYPE: infill\n"]

def docUnknown : List Str := [lit "; TYPE: gibberish\n"]

/-- The loop state reached just before the `; TYPE: infill` marker of
`docTemp` (after the `M104 S190` line and the bridge boundary). -/
def stBeforeInfill : PState :=
  (run_lines cfgTempBridge (init_state docTemp) (docTemp.take 2)).1

end CFS

namespace CFS

/-! ## Claims -/

/-- Claim C1 (code bug): the claim says one `;LAYER_CHANGE` line changes
`current_layer` by exactly +1 with exactly one rule firing, and that is what
a single application of `update_layer_from_line` does (first conjunct); but
the loop body calls `update_layer_from_line` both at its top (line 284) and
at its bottom (line 385), so processing the single layer-change line
increments `current_layer` twice: the pass over one `;LAYER_CHANGE` line ends
at layer 2 from the effective start value 0 (second and third conjuncts). -/
theorem layer_change_double_increment :
    (update_layer_from_line (init_state docLayerChange) (lit ";LAYER_CHANGE\n") []).current_layer
      = (init_state docLayerChange).current_layer + 1 ∧
    (init_state docLayerChange).current_layer = 0 ∧
    (final_state cfgPlain docLayerChange).current_layer = 2 := by
  refine ⟨?_, ?_, ?_⟩ <;> decide

/-- Claim C2 (code bug): in `docZSeq` the first motion line carrying a Z word
is the second line, with Z = 5 (first two conjuncts), yet after processing
only the first line — which carries no Z — `last_z` is already seeded with 10,
the Z of the document's *last* line: the layer update at the top of the first
iteration reads the stale `processed_line` left over from the dead first loop
(lines 263-267).  The pass ends with `last_z = 10` and a single layer
increment. -/
theorem z_seed_uses_stale_last_line :
    findZ ((lit "G1 X0\n").takeWhile (fun c => c ≠ ';')) = none ∧
    findZ ((lit "G1 Z5\n").takeWhile (fun c => c ≠ ';')) = some 5 ∧
    (run_lines cfgPlain (init_state docZSeq) (docZSeq.take 1)).1.last_z = some 10 ∧
    (final_state cfgPlain docZSeq).last_z = some 10 ∧
    (final_state cfgPlain docZSeq).current_layer = 1 := by
  refine ⟨?_, ?_, ?_, ?_, ?_⟩ <;> with_unfolding_all decide

/-- Claim C3, counterexample: with an enter command configured for `infill`,
the output places the injected line immediately *after* the retained marker
line, not before it as the claim states. -/
theorem injections_precede_marker_cex :
    process_gcode_lines cfgEnterInfill docEnter
      = [lit "; TYPE: infill\n", lit "M900 K0.5 ; enter infill\n", lit "G1 X0\n"] ∧
    process_gcode_lines cfgEnterInfill docEnter
      ≠ [lit "M900 K0.5 ; enter infill\n", lit "; TYPE: infill\n", lit "G1 X0\n"] := by
  refine ⟨?_, ?_⟩ <;> with_unfolding_all decide

/-- Claim C3, amended: on a recognized, non-skipped feature marker the marker
line itself is retained as-is and heads the chunk the iteration emits, and
the injected lines form a block immediately *following* it (the block of the
override state machine). -/
theorem marker_retained_injections_follow :
    ∀ (cfg : Config) (st : PState) (line tv : Str) (c : String),
      typeValue line = some tv → match_canonical tv = some c →
      skip_active cfg (pre_state st line) = false →
      ∃ st2 block, step cfg st line = (st2, line :: block) ∧
        block = (feature_boundary cfg
          { (pre_state st line) with
            current_layer := if (pre_state st line).current_layer < 0 then 0
                             else (pre_state st line).current_layer,
            current_feature_canon := some c } c).2 :=
  fun cfg st line tv c h1 h2 h3 => marker_step_chunk cfg st line tv c h1 h2 h3

/-- Witness for the amended Claim C3 at the concrete enter-command scenario. -/
theorem marker_retained_injections_follow_witness :
    (typeValue (lit "; TYPE: infill\n") = some (lit "infill") ∧
     match_canonical (lit "infill") = some "infill" ∧
     skip_active cfgEnterInfill (pre_state (init_state docEnter) (lit "; TYPE: infill\n"))
       = false) ∧
    (∃ st2 block,
      step cfgEnterInfill (init_state docEnter) (lit "; TYPE: infill\n")
        = (st2, lit "; TYPE: infill\n" :: block) ∧
      block = (feature_boundary cfgEnterInfill
        { (pre_state (init_state docEnter) (lit "; TYPE: infill\n")) with
          current_layer :=
            if (pre_state (init_state docEnter) (lit "; TYPE: infill\n")).current_layer < 0
            then 0
            else (pre_state (init_state docEnter) (lit "; TYPE: infill\n")).current_layer,
          current_feature_canon := some "infill" } "infill").2) :=
  ⟨⟨by decide, by decide, by decide⟩,
   marker_retained_injections_follow cfgEnterInfill (init_state docEnter)
     (lit "; TYPE: infill\n") (lit "infill") "infill" (by decide) (by decide) (by decide)⟩

/-- Claim C4 (code bug): the claim says `current_layer` holds the sentinel
`-1` until a layer signal fires, but the reset block before the effective
loop (line 281) sets it to 0: on a document whose single line fires no layer
signal the pass both starts and ends at layer 0, never showing the
sentinel. -/
theorem pass_starts_at_layer_zero :
    (init_state docMove).current_layer = 0 ∧
    (final_state cfgPlain docMove).current_layer = 0 := by
  refine ⟨?_, ?_⟩ <;> decide

/-- Claim C5: flow rewriting with a non-identity factor on a motion line with
a parsed extrusion value: non-positive deltas leave the text but advance the
absolute accumulator, positive deltas replace exactly the E number token with
the scaled value (formatted, trimmed) and advance the accumulator; in
particular `; TYPE: infill` then `G1 X10 E5` at factor 1.1 from accumulator 0
rewrites the extrusion value to `5.5`. -/
theorem flow_rewrite_spec :
    (∀ (cfg : Config) (st : PState) (f : ℚ) (line cp cm pre tok post : Str)
       (sep : Bool) (v : ℚ),
      pyPartitionSemi line = (cp, sep, cm) →
      ¬ |f - 1| < 1 / 10 ^ 12 →
      matchMove cp = true →
      findE cp = some (pre, tok, v, post) →
      ((if st.e_relative then v else v - st.last_e_abs) ≤ 0 →
          apply_flow_to_line cfg st f line =
            ((if st.e_relative then st else { st with last_e_abs := v }), line)) ∧
      (0 < (if st.e_relative then v else v - st.last_e_abs) →
          apply_flow_to_line cfg st f line =
            ((if st.e_relative then st
              else { st with last_e_abs := st.last_e_abs + (v - st.last_e_abs) * f }),
             pre ++ fmt_float (if st.e_relative then v * f
                               else st.last_e_abs + (v - st.last_e_abs) * f)
                      cfg.flow_decimals
                 ++ post ++ (if sep then ';' :: cm else [])))) ∧
    fmt_float (11 / 2) 5 = lit "5.5" ∧
    process_gcode_lines cfgFlowInfill docFlow
      = [lit "; TYPE: infill\n", lit "G1 X10 E5.5\n"] :=
  ⟨fun cfg st f line cp cm pre tok post sep v hp hid hmv he =>
     apply_flow_cases cfg st f line cp cm pre tok post sep v hp hid hmv he,
   by with_unfolding_all decide,
   by with_unfolding_all decide⟩

/-- Witness for Claim C5: the concrete `G1 X10 E5` rewrite at factor 1.1. -/
theorem flow_rewrite_spec_witness :
    (¬ |(11 / 10 : ℚ) - 1| < 1 / 10 ^ 12) ∧
    matchMove (lit "G1 X10 E5\n") = true ∧
    findE (lit "G1 X10 E5\n") = some (lit "G1 X10 E", ['5'], 5, ['\n']) ∧
    apply_flow_to_line cfgFlowInfill (init_state docFlow) (11 / 10) (lit "G1 X10 E5\n")
      = ({ init_state docFlow with last_e_abs := 11 / 2 }, lit "G1 X10 E5.5\n") := by
  refine ⟨by with_unfolding_all decide, by decide, by with_unfolding_all decide, ?_⟩
  have h := (flow_rewrite_spec.1 cfgFlowInfill (init_state docFlow) (11 / 10)
      (lit "G1 X10 E5\n") (lit "G1 X10 E5\n") [] (lit "G1 X10 E") ['5'] ['\n'] false 5
      (by decide) (by with_unfolding_all decide) (by decide)
      (by with_unfolding_all decide)).2 (by with_unfolding_all decide)
  rw [h]
  with_unfolding_all decide

/-- Claim C6: at a boundary where the previous feature overrode the
temperature (fan) and the new feature has no such override, the injected
restore command targets exactly the stored baseline and the tracked value is
set back to it; concretely, `M104 S190`, bridge at 210, then infill with no
override restores 190 — the temperature in effect just before the bridge
override. -/
theorem boundary_restore_spec :
    (∀ (cfg : Config) (st : PState) (c : String) (b : ℚ),
      st.prev_overrode_temp = true → cfg.feature_temps c = none →
      st.baseline_temp = some b →
      (temp_line cfg b (lit "restore baseline at feature boundary") ++ ['\n'])
          ∈ (feature_boundary cfg st c).2 ∧
      (cfg.feature_gcode_enter c = [] →
        (feature_boundary cfg st c).1.current_temp = some b)) ∧
    (∀ (cfg : Config) (st : PState) (c : String) (p : ℤ),
      st.prev_overrode_fan = true → cfg.feature_fans_pct c = none →
      st.baseline_fan_pwm = some p →
      (fan_line p (lit "restore baseline at feature boundary") ++ ['\n'])
          ∈ (feature_boundary cfg st c).2 ∧
      (cfg.feature_gcode_enter c = [] →
        (feature_boundary cfg st c).1.current_fan_pwm = some p)) ∧
    process_gcode_lines cfgTempBridge docTemp
      = [lit "M104 S190\n", lit "; TYPE: bridge\n", lit "M104 S210 ; set temp (bridge)\n",
         lit "; TYPE: infill\n",
         lit "M104 S190 ; set temp (restore baseline at feature boundary)\n"] :=
  ⟨fun cfg st c b h1 h2 h3 => boundary_restores_temp cfg st c b h1 h2 h3,
   fun cfg st c p h1 h2 h3 => boundary_restores_fan cfg st c p h1 h2 h3,
   by with_unfolding_all decide⟩

/-- Witness for Claim C6 at the bridge-to-infill boundary of `docTemp`. -/
theorem boundary_restore_spec_witness :
    (stBeforeInfill.prev_overrode_temp = true ∧
     cfgTempBridge.feature_temps "infill" = none ∧
     stBeforeInfill.baseline_temp = some 190) ∧
    (temp_line cfgTempBridge 190 (lit "restore baseline at feature boundary") ++ ['\n'])
        ∈ (feature_boundary cfgTempBridge stBeforeInfill "infill").2 ∧
    (feature_boundary cfgTempBridge stBeforeInfill "infill").1.current_temp = some 190 :=
  ⟨⟨by with_unfolding_all decide, by decide, by with_unfolding_all decide⟩,
   (boundary_restore_spec.1 cfgTempBridge stBeforeInfill "infill" 190
     (by with_unfolding_all decide) (by decide) (by with_unfolding_all decide)).1,
   (boundary_restore_spec.1 cfgTempBridge stBeforeInfill "infill" 190
     (by with_unfolding_all decide) (by decide) (by with_unfolding_all decide)).2
     (by decide)⟩

/-- Claim C7, counterexample: with `skip_first_layers = 2`, an explicit
`;LAYER: -1` marker makes the skip check fail its `current_layer ≥ 0`
conjunct, so the following `; TYPE: infill` marker normalizes the layer to 0
and injects its temperature override even though `current_layer = 0 < 2`:
the output is not the untouched input the claim demands. -/
theorem skip_span_negative_layer_cex :
    process_gcode_lines cfgSkipTemp docSkipNeg
      = [lit ";LAYER: -1\n", lit "; TYPE: infill\n",
         lit "M104 S250 ; set temp (infill)\n"] ∧
    process_gcode_lines cfgSkipTemp docSkipNeg ≠ docSkipNeg ∧
    (final_state cfgSkipTemp docSkipNeg).current_layer = 0 ∧
    (0 : ℤ) < cfgSkipTemp.skip_first_layers ∧
    (final_state cfgSkipTemp docSkipNeg).current_layer < cfgSkipTemp.skip_first_layers := by
  refine ⟨?_, ?_, ?_, ?_, ?_⟩ <;> with_unfolding_all decide

/-- Claim C7, amended: on every line whose skip check (after the top layer
update) sees `0 ≤ current_layer < skip_first_layers`, the iteration emits
exactly the unmodified input line — no temperature, fan, flow or custom-gcode
injection of any kind; lines whose check sees a negative layer are not part
of the skip span. -/
theorem skip_span_passthrough :
    ∀ (cfg : Config) (st : PState) (line : Str),
      skip_active cfg (pre_state st line) = true → (step cfg st line).2 = [line] :=
  fun cfg st line h => skip_step_passthrough cfg st line h

/-- Witness for the amended Claim C7: a skipped motion line passes through. -/
theorem skip_span_passthrough_witness :
    skip_active cfgSkipTemp (pre_state (init_state docMove) (lit "G1 X0\n")) = true ∧
    (step cfgSkipTemp (init_state docMove) (lit "G1 X0\n")).2 = [lit "G1 X0\n"] :=
  ⟨by decide,
   skip_span_passthrough cfgSkipTemp (init_state docMove) (lit "G1 X0\n") (by decide)⟩

/-- Claim C8: every iteration emits the (possibly flow-rewritten) input line
at the head of its chunk, so no input line is ever dropped; and whenever a
numeric token is absent or unparsable — no E word on the motion line, no
temperature S value, no fan value, no layer index and no Z word — the
corresponding state variable is left untouched and the line text is left
alone. -/
theorem malformed_token_inert_no_drop :
    (∀ (cfg : Config) (st : PState) (line : Str),
      ∃ st2 tail, step cfg st line =
        (st2, (flow_result cfg (pre_state st line)
                 (skip_active cfg (pre_state st line)) line).2 :: tail)) ∧
    (∀ (cfg : Config) (st : PState) (f : ℚ) (line : Str),
      findE ((pyPartitionSemi line).1) = none →
      apply_flow_to_line cfg st f line = (st, line)) ∧
    (∀ (st : PState) (s : Str), matchTempCmd s = none →
      (passive_update st s).current_temp = st.current_temp) ∧
    (∀ (st : PState) (s : Str), matchFanOff s = false → matchFanOn s = none →
      (passive_update st s).current_fan_pwm = st.current_fan_pwm) ∧
    (∀ (st : PState) (orig proc : Str),
      matchLayerNum orig = none → matchLayerWord orig = none →
      matchLayerChange orig = false →
      findZ (proc.takeWhile (fun c => c ≠ ';')) = none →
      update_layer_from_line st orig proc = st) :=
  ⟨fun cfg st line => step_chunk_head cfg st line,
   fun cfg st f line h => apply_flow_no_e cfg st f line h,
   fun st s h => passive_update_temp_eq st s h,
   fun st s h1 h2 => passive_update_fan_eq st s h1 h2,
   fun st orig proc h1 h2 h3 h4 => update_layer_inert st orig proc h1 h2 h3 h4⟩

/-- Witness for Claim C8 on a line with no parsable tokens at all. -/
theorem malformed_token_inert_no_drop_witness :
    (findE ((pyPartitionSemi (lit "G1 Xq\n")).1) = none ∧
     apply_flow_to_line cfgPlain (init_state docMove) 2 (lit "G1 Xq\n")
       = (init_state docMove, lit "G1 Xq\n")) ∧
    (matchTempCmd (lit "G1 X0") = none ∧
     (passive_update (init_state docMove) (lit "G1 X0")).current_temp
       = (init_state docMove).current_temp) ∧
    (matchFanOff (lit "G1 X0") = false ∧ matchFanOn (lit "G1 X0") = none ∧
     (passive_update (init_state docMove) (lit "G1 X0")).current_fan_pwm
       = (init_state docMove).current_fan_pwm) ∧
    (matchLayerNum (lit "G1 X0\n") = none ∧ matchLayerWord (lit "G1 X0\n") = none ∧
     matchLayerChange (lit "G1 X0\n") = false ∧
     findZ ((lit "G1 X0\n").takeWhile (fun c => c ≠ ';')) = none ∧
     update_layer_from_line (init_state docMove) (lit "G1 X0\n") (lit "G1 X0\n")
       = init_state docMove) :=
  ⟨⟨by decide,
    malformed_token_inert_no_drop.2.1 cfgPlain (init_state docMove) 2 (lit "G1 Xq\n")
      (by decide)⟩,
   ⟨by decide,
    malformed_token_inert_no_drop.2.2.1 (init_state docMove) (lit "G1 X0") (by decide)⟩,
   ⟨by decide, by decide,
    malformed_token_inert_no_drop.2.2.2.1 (init_state docMove) (lit "G1 X0")
      (by decide) (by decide)⟩,
   ⟨by decide, by decide, by decide, by decide,
    malformed_token_inert_no_drop.2.2.2.2 (init_state docMove) (lit "G1 X0\n")
      (lit "G1 X0\n") (by decide) (by decide) (by decide) (by decide)⟩⟩

/-- Claim C9: a missing input file makes the program exit with status 1
before anything is written; with readable input the document is replaced by
exactly the output of the completed pass (exit status 0). -/
theorem missing_input_error_exit :
    (∀ cfg : Config, process_gcode_run cfg none = Except.error 1) ∧
    (∀ (cfg : Config) (lines : List Str),
      process_gcode_run cfg (some lines) = Except.ok (process_gcode_lines cfg lines)) :=
  ⟨fun _ => rfl, fun _ _ => rfl⟩

/-- Claim C10: an unrecognized feature marker passes through alone and
overwrites the previous-feature record with `none`; a boundary's block always
begins with the exit commands derived from that record, the record `none`
yields no exit commands, and nothing at all is emitted after the last input
line — so the orphaned feature's exit commands are never emitted. -/
theorem unknown_feature_clears_prev :
    (∀ (cfg : Config) (st : PState) (line tv : Str),
      typeValue line = some tv → match_canonical tv = none →
      ∃ st2, step cfg st line = (st2, [line]) ∧ st2.prev_feature_canon = none) ∧
    (∀ (cfg : Config) (st : PState) (c : String),
      ∃ rest, (feature_boundary cfg st c).2 = (exit_block cfg st).map ensureNL ++ rest) ∧
    (∀ (cfg : Config) (st : PState),
      st.prev_feature_canon = none → exit_block cfg st = []) ∧
    (∀ (cfg : Config) (st : PState), run_lines cfg st [] = (st, [])) :=
  ⟨fun cfg st line tv h1 h2 => unknown_marker_step cfg st line tv h1 h2,
   fun cfg st c => boundary_exit_prefix cfg st c,
   fun cfg st h => exit_block_of_none cfg st h,
   fun cfg st => run_lines_nil cfg st⟩

/-- Witness for Claim C10 at a concrete unrecognized marker. -/
theorem unknown_feature_clears_prev_witness :
    (typeValue (lit "; TYPE: gibberish\n") = some (lit "gibberish") ∧
     match_canonical (lit "gibberish") = none) ∧
    (∃ st2, step cfgPlain (init_state docUnknown) (lit "; TYPE: gibberish\n")
        = (st2, [lit "; TYPE: gibberish\n"]) ∧ st2.prev_feature_canon = none) ∧
    ((init_state docUnknown).prev_feature_canon = none ∧
     exit_block cfgPlain (init_state docUnknown) = []) :=
  ⟨⟨by decide, by decide⟩,
   unknown_feature_clears_prev.1 cfgPlain (init_state docUnknown)
     (lit "; TYPE: gibberish\n") (lit "gibberish") (by decide) (by decide),
   ⟨by decide,
    unknown_feature_clears_prev.2.2.1 cfgPlain (init_state docUnknown) (by decide)⟩⟩

end CFS
